import Mathlib

/-!
Verification of the Maidly access-control core: the four relations
(profiles, user_roles, maids, jobs), their row-level-security policies,
check constraints, and triggers, as declared by the SQL migrations, plus
the write operations the page components issue against the store.

Conventions of the embedding:
* UUID values are represented by `Nat`.
* `DECIMAL(10,2)` money values are exact two-decimal numbers, represented
  by their integer number of hundredths (`Int`); e.g. the SQL literal
  10000 is `1000000` and 9999.99 is `999999`.
* `TIMESTAMPTZ` and `DATE` values are represented by `Nat`.
* `TEXT` columns carrying a `CHECK (x IN (...))` constraint stay `String`,
  with the constraint as an executable predicate, exactly as in the DDL.
* The policy set modelled is the final one: the corrective migration
  dropped the permissive "Users can view all profiles" policy and replaced
  it by "Users can view own profile", and added the three rate check
  constraints on maids.
-/

namespace Maidly

/-- The Postgres enum `app_role` with values customer and maid. -/
inductive AppRole where
  | customer
  | maid
deriving DecidableEq, Repr

/-- A row of `public.profiles`: id references auth.users, email and
full_name are NOT NULL, phone is nullable. -/
structure Profile where
  id : Nat
  email : String
  full_name : String
  phone : Option String
  created_at : Nat
  updated_at : Nat
deriving DecidableEq, Repr

/-- A row of `public.user_roles`: user_id references auth.users, role is
an `app_role`. -/
structure UserRole where
  id : Nat
  user_id : Nat
  role : AppRole
deriving DecidableEq, Repr

/-- A row of `public.maids`. Rates are DECIMAL(10,2) in hundredths. -/
structure Maid where
  id : Nat
  user_id : Nat
  hourly_rate : Int
  daily_rate : Int
  monthly_rate : Int
  location : String
  description : Option String
  rating : Int
  total_jobs : Int
  completed_jobs : Int
  created_at : Nat
  updated_at : Nat
deriving DecidableEq, Repr

/-- A row of `public.jobs`. `job_type` and `status` are TEXT columns
constrained by CHECK (IN-list) clauses, kept as `String` here. -/
structure Job where
  id : Nat
  customer_id : Nat
  maid_id : Nat
  job_date : Nat
  duration : String
  location : String
  job_type : String
  amount : Int
  status : String
  created_at : Nat
  updated_at : Nat
deriving DecidableEq, Repr

/-- A row of `auth.users` as seen by the signup trigger: id, email and the
raw_user_meta_data JSON object (a finite map from keys to strings). -/
structure AuthUser where
  id : Nat
  email : String
  raw_user_meta_data : List (String × String)
deriving DecidableEq, Repr

/-- The store state: the auth relation plus the four public tables. -/
structure DB where
  auth_users : List AuthUser
  profiles : List Profile
  user_roles : List UserRole
  maids : List Maid
  jobs : List Job
deriving DecidableEq, Repr

/-- CHECK constraint on `jobs.job_type`:
`job_type IN ('hourly', 'daily', 'monthly')`. -/
def jobTypeCheck (t : String) : Bool :=
  t == "hourly" || t == "daily" || t == "monthly"

/-- CHECK constraint on `jobs.status`:
`status IN ('pending', 'accepted', 'completed', 'cancelled')`. -/
def statusCheck (s : String) : Bool :=
  s == "pending" || s == "accepted" || s == "completed" || s == "cancelled"

/-- Constraint `check_hourly_rate_positive`:
`hourly_rate > 0 AND hourly_rate < 10000`, in hundredths. -/
def check_hourly_rate_positive (r : Int) : Bool :=
  0 < r && r < 1000000

/-- Constraint `check_daily_rate_positive`:
`daily_rate > 0 AND daily_rate < 50000`, in hundredths. -/
def check_daily_rate_positive (r : Int) : Bool :=
  0 < r && r < 5000000

/-- Constraint `check_monthly_rate_positive`:
`monthly_rate > 0 AND monthly_rate < 500000`, in hundredths. -/
def check_monthly_rate_positive (r : Int) : Bool :=
  0 < r && r < 50000000

/-- All three rate check constraints on a maids row. -/
def maidChecks (m : Maid) : Bool :=
  check_hourly_rate_positive m.hourly_rate &&
  check_daily_rate_positive m.daily_rate &&
  check_monthly_rate_positive m.monthly_rate

/-- The SECURITY DEFINER function `public.has_role(_user_id, _role)`:
`EXISTS (SELECT 1 FROM user_roles WHERE user_id = _user_id AND role = _role)`.
SECURITY DEFINER means it reads user_roles unfiltered by row security. -/
def has_role (db : DB) (uid : Nat) (r : AppRole) : Bool :=
  db.user_roles.any fun ur => ur.user_id == uid && ur.role == r

/-- Policy "Users can view own profile" (the corrective migration's
replacement for the dropped "Users can view all profiles"):
`USING (auth.uid() = id)`. The sole SELECT policy on profiles. -/
def profilesSelectUsing (uid : Nat) (p : Profile) : Bool :=
  uid == p.id

/-- Policy "Users can update own profile": `USING (auth.uid() = id)`. -/
def profilesUpdateUsing (uid : Nat) (p : Profile) : Bool :=
  uid == p.id

/-- No INSERT policy is declared on profiles; with row security enabled
the default is deny, so a client-side insert into profiles is never
permitted (profile rows come only from the signup trigger). -/
def profilesInsertCheck (_uid : Nat) (_p : Profile) : Bool :=
  false

/-- Policy "Users can view own roles": `USING (auth.uid() = user_id)`.
The sole SELECT policy on user_roles. -/
def userRolesSelectUsing (uid : Nat) (r : UserRole) : Bool :=
  uid == r.user_id

/-- Policy "Users can insert own role on signup":
`WITH CHECK (auth.uid() = user_id)`. -/
def userRolesInsertCheck (uid : Nat) (r : UserRole) : Bool :=
  uid == r.user_id

/-- Policy "Anyone can view maids": `USING (true)` for authenticated. -/
def maidsSelectUsing (_uid : Nat) (_m : Maid) : Bool :=
  true

/-- Policy "Maids can insert own profile":
`WITH CHECK (auth.uid() = user_id)`. -/
def maidsInsertCheck (uid : Nat) (m : Maid) : Bool :=
  uid == m.user_id

/-- Policy "Maids can update own profile": `USING (auth.uid() = user_id)`.
With no separate WITH CHECK clause, the same expression also gates the
updated row. -/
def maidsUpdateUsing (uid : Nat) (m : Maid) : Bool :=
  uid == m.user_id

/-- The EXISTS subquery shared by the jobs policies for the assigned maid:
`EXISTS (SELECT 1 FROM maids WHERE maids.id = jobs.maid_id AND
maids.user_id = auth.uid())`. -/
def assignedMaidExists (uid : Nat) (db : DB) (j : Job) : Bool :=
  db.maids.any fun m => m.id == j.maid_id && m.user_id == uid

/-- Combined SELECT gate on jobs: policy "Customers can view own jobs"
(`auth.uid() = customer_id`) OR policy "Maids can view jobs assigned to
them" (the EXISTS subquery); permissive policies are disjoined. -/
def jobsSelectUsing (uid : Nat) (db : DB) (j : Job) : Bool :=
  uid == j.customer_id || assignedMaidExists uid db j

/-- Policy "Customers can create jobs":
`WITH CHECK (auth.uid() = customer_id AND has_role(auth.uid(), 'customer'))`. -/
def jobsInsertCheck (uid : Nat) (db : DB) (j : Job) : Bool :=
  uid == j.customer_id && has_role db uid AppRole.customer

/-- Combined UPDATE gate on jobs: policy "Customers can update own jobs"
(`auth.uid() = customer_id`) OR policy "Maids can update assigned jobs"
(the EXISTS subquery); permissive policies are disjoined, and with no
separate WITH CHECK the same disjunction also gates the updated row. -/
def jobsUpdateUsing (uid : Nat) (db : DB) (j : Job) : Bool :=
  uid == j.customer_id || assignedMaidExists uid db j

/-- Rows of profiles visible to `uid` under the SELECT policy. -/
def visibleProfiles (uid : Nat) (db : DB) : List Profile :=
  db.profiles.filter (profilesSelectUsing uid)

/-- Rows of user_roles visible to `uid` under the SELECT policy. -/
def visibleUserRoles (uid : Nat) (db : DB) : List UserRole :=
  db.user_roles.filter (userRolesSelectUsing uid)

/-- Rows of maids visible to `uid` under the SELECT policy. -/
def visibleMaids (uid : Nat) (db : DB) : List Maid :=
  db.maids.filter (maidsSelectUsing uid)

/-- Rows of jobs visible to `uid` under the disjoined SELECT policies. -/
def visibleJobs (uid : Nat) (db : DB) : List Job :=
  db.jobs.filter (jobsSelectUsing uid db)

/-- Trigger `update_updated_at_column` applied to a profiles row:
`NEW.updated_at = NOW()` before the update is stored. -/
def profileSetUpdatedAt (now : Nat) (p : Profile) : Profile :=
  { p with updated_at := now }

/-- Trigger `update_updated_at_column` applied to a maids row. -/
def maidSetUpdatedAt (now : Nat) (m : Maid) : Maid :=
  { m with updated_at := now }

/-- Trigger `update_updated_at_column` applied to a jobs row. -/
def jobSetUpdatedAt (now : Nat) (j : Job) : Job :=
  { j with updated_at := now }

/-- INSERT into user_roles by `uid`: gated by the WITH CHECK policy. -/
def insertUserRole (uid : Nat) (db : DB) (r : UserRole) : Option DB :=
  if userRolesInsertCheck uid r then
    some { db with user_roles := db.user_roles ++ [r] }
  else
    none

/-- INSERT into maids by `uid`: gated by the WITH CHECK policy and the
three rate check constraints. -/
def insertMaid (uid : Nat) (db : DB) (m : Maid) : Option DB :=
  if maidsInsertCheck uid m && maidChecks m then
    some { db with maids := db.maids ++ [m] }
  else
    none

/-- INSERT into jobs by `uid`: gated by the WITH CHECK policy and the
job_type/status check constraints. -/
def insertJob (uid : Nat) (db : DB) (j : Job) : Option DB :=
  if jobsInsertCheck uid db j && jobTypeCheck j.job_type && statusCheck j.status then
    some { db with jobs := db.jobs ++ [j] }
  else
    none

/-- UPDATE of a profiles row by `uid`: the BEFORE UPDATE trigger stamps
updated_at, the USING policy gates the existing row and (absent a separate
WITH CHECK) the stored row. -/
def updateProfile (uid now : Nat) (db : DB) (old pNew : Profile) : Option DB :=
  if profilesUpdateUsing uid old && profilesUpdateUsing uid (profileSetUpdatedAt now pNew) then
    some { db with profiles := db.profiles.map fun x =>
      if x.id == old.id then profileSetUpdatedAt now pNew else x }
  else
    none

/-- UPDATE of a maids row by `uid`: trigger stamps updated_at; the USING
policy gates old and stored rows; the rate check constraints are
re-evaluated on the stored row. -/
def updateMaid (uid now : Nat) (db : DB) (old mNew : Maid) : Option DB :=
  if maidsUpdateUsing uid old && maidsUpdateUsing uid (maidSetUpdatedAt now mNew) &&
      maidChecks (maidSetUpdatedAt now mNew) then
    some { db with maids := db.maids.map fun x =>
      if x.id == old.id then maidSetUpdatedAt now mNew else x }
  else
    none

/-- UPDATE of a jobs row by `uid`: trigger stamps updated_at; the disjoined
USING policies gate old and stored rows; the job_type and status check
constraints are re-evaluated on the stored row. -/
def updateJob (uid now : Nat) (db : DB) (old jNew : Job) : Option DB :=
  if jobsUpdateUsing uid db old && jobsUpdateUsing uid db (jobSetUpdatedAt now jNew) &&
      jobTypeCheck (jobSetUpdatedAt now jNew).job_type &&
      statusCheck (jobSetUpdatedAt now jNew).status then
    some { db with jobs := db.jobs.map fun x =>
      if x.id == old.id then jobSetUpdatedAt now jNew else x }
  else
    none

/-- Lookup of a key in raw_user_meta_data, the `->>` operator: the value
at the key, or NULL when absent. -/
def metaField (meta : List (String × String)) (k : String) : Option String :=
  (meta.find? fun kv => kv.fst == k).map fun kv => kv.snd

/-- Trigger function `handle_new_user`: builds the profiles row inserted
AFTER INSERT on auth.users —
`(new.id, new.email, COALESCE(meta->>'full_name', ''), meta->>'phone')`,
timestamps defaulting to NOW(). -/
def handle_new_user (now : Nat) (u : AuthUser) : Profile :=
  { id := u.id
    email := u.email
    full_name := (metaField u.raw_user_meta_data "full_name").getD ""
    phone := metaField u.raw_user_meta_data "phone"
    created_at := now
    updated_at := now }

/-- Creation of an identity: the auth.users insert (primary key enforces
a fresh id) together with the `on_auth_user_created` trigger, which
inserts exactly one profiles row built by `handle_new_user`. -/
def createUser (now : Nat) (db : DB) (u : AuthUser) : Option DB :=
  if db.auth_users.any fun x => x.id == u.id then
    none
  else
    some { db with
      auth_users := db.auth_users ++ [u]
      profiles := db.profiles ++ [handle_new_user now u] }

/-- The store effect of `supabase.from('jobs').update(\x7b status: s \x7d).eq('id', jobId)`:
every jobs row matching the filter AND passing the UPDATE policies gets
the new status (with the updated_at trigger applied); rows the caller may
not update are silently left unchanged. -/
def setJobStatus (uid now : Nat) (db : DB) (jobId : Nat) (s : String) : DB :=
  { db with jobs := db.jobs.map fun j =>
      if j.id == jobId && jobsUpdateUsing uid db j && statusCheck s then
        jobSetUpdatedAt now { j with status := s }
      else
        j }

/-- The store effect of
`supabase.from('maids').update(\x7b completed_jobs: v \x7d).eq('id', maidId)`. -/
def setMaidCompletedJobs (uid now : Nat) (db : DB) (maidId : Nat) (v : Int) : DB :=
  { db with maids := db.maids.map fun m =>
      if m.id == maidId && maidsUpdateUsing uid m then
        maidSetUpdatedAt now { m with completed_jobs := v }
      else
        m }

/-- `completeJob` from Index.tsx: first write sets the job's status to
completed; a second, independent write then sets the maid's completed_jobs
to the client's cached value plus one. `secondWriteOk` is false when the
second request never takes effect (failure or early return), leaving only
the first write applied. -/
def completeJob (uid now : Nat) (db : DB) (jobId maidId : Nat)
    (cachedCompleted : Int) (secondWriteOk : Bool) : DB :=
  let db1 := setJobStatus uid now db jobId "completed"
  if secondWriteOk then
    setMaidCompletedJobs uid now db1 maidId (cachedCompleted + 1)
  else
    db1

/-- The maid-signup form fields of Auth.tsx: the insert supplies only
these columns, so rating, total_jobs and completed_jobs take their
declared defaults of 0. -/
structure MaidSignup where
  user_id : Nat
  hourly_rate : Int
  daily_rate : Int
  monthly_rate : Int
  location : String
  description : Option String
deriving DecidableEq, Repr

/-- The maids row built by the Auth.tsx signup insert: generated id,
defaulted counters and timestamps. -/
def maidRowOfSignup (rowId now : Nat) (s : MaidSignup) : Maid :=
  { id := rowId
    user_id := s.user_id
    hourly_rate := s.hourly_rate
    daily_rate := s.daily_rate
    monthly_rate := s.monthly_rate
    location := s.location
    description := s.description
    rating := 0
    total_jobs := 0
    completed_jobs := 0
    created_at := now
    updated_at := now }

/-- Every write the page components issue against the store: the signup
inserts of Auth.tsx, the booking insert of CustomerDashboard.tsx, and the
accept/reject/cancel/complete status updates of Index.tsx and
CustomerDashboard.tsx. -/
inductive ClientOp where
  | signupRole (uid rowId : Nat) (role : AppRole)
  | signupMaid (uid rowId now : Nat) (s : MaidSignup)
  | bookJob (uid rowId now maidId jobDate : Nat)
      (dur loc jt : String) (amount : Int)
  | acceptJob (uid now jobId : Nat)
  | rejectJob (uid now jobId : Nat)
  | cancelJob (uid now jobId : Nat)
  | completeJobOp (uid now jobId maidId : Nat) (cached : Int) (ok2 : Bool)
deriving Repr

/-- The jobs row built by handleBookMaid in CustomerDashboard.tsx:
customer_id is the caller, status is supplied as pending, timestamps
default. -/
def jobRowOfBooking (uid rowId now maidId jobDate : Nat)
    (dur loc jt : String) (amount : Int) : Job :=
  { id := rowId
    customer_id := uid
    maid_id := maidId
    job_date := jobDate
    duration := dur
    location := loc
    job_type := jt
    amount := amount
    status := "pending"
    created_at := now
    updated_at := now }

/-- One client operation applied to the store; a rejected insert leaves
the store unchanged. -/
def applyClientOp (db : DB) : ClientOp → DB
  | .signupRole uid rowId role =>
      (insertUserRole uid db { id := rowId, user_id := uid, role := role }).getD db
  | .signupMaid uid rowId now s =>
      (insertMaid uid db (maidRowOfSignup rowId now s)).getD db
  | .bookJob uid rowId now maidId jobDate dur loc jt amount =>
      (insertJob uid db (jobRowOfBooking uid rowId now maidId jobDate dur loc jt amount)).getD db
  | .acceptJob uid now jobId => setJobStatus uid now db jobId "accepted"
  | .rejectJob uid now jobId => setJobStatus uid now db jobId "cancelled"
  | .cancelJob uid now jobId => setJobStatus uid now db jobId "cancelled"
  | .completeJobOp uid now jobId maidId cached ok2 =>
      completeJob uid now db jobId maidId cached ok2

/-- A sequence of client operations applied left to right. -/
def applyClientOps (db : DB) (ops : List ClientOp) : DB :=
  ops.foldl applyClientOp db

/-- The maid listing of fetchMaids in CustomerDashboard.tsx:
`from('maids').select('*, profiles!inner(full_name)')` — an inner join of
the RLS-visible maids rows with the RLS-visible profiles rows along
maids.user_id = profiles.id (ordering by rating omitted; it does not
affect membership). -/
def fetchMaids (uid : Nat) (db : DB) : List (Maid × Profile) :=
  (visibleMaids uid db).flatMap fun m =>
    ((visibleProfiles uid db).filter fun p => p.id == m.user_id).map fun p => (m, p)

/-- The empty store. -/
def dbEmpty : DB := ⟨[], [], [], [], []⟩

/-- Sample profile owned by identity 2. -/
def profileB : Profile := ⟨2, "b@example.com", "B", none, 0, 0⟩

/-- Sample role assignment of identity 2. -/
def roleB : UserRole := ⟨10, 2, AppRole.customer⟩

/-- Store holding only identity 2's profile and role row. -/
def dbC1 : DB := ⟨[], [profileB], [roleB], [], []⟩

/-- Store where identity 1 holds the customer role. -/
def dbCust1 : DB := ⟨[], [], [⟨11, 1, AppRole.customer⟩], [], []⟩

/-- Sample pending job of customer 1 assigned to maid row 3. -/
def jobPending1 : Job := ⟨5, 1, 3, 100, "2 hours", "Sector 5", "hourly", 5000, "pending", 0, 0⟩

/-- Sample completed job of customer 1 assigned to maid row 3. -/
def jobCompleted1 : Job := ⟨7, 1, 3, 100, "2 hours", "Sector 5", "hourly", 5000, "completed", 0, 0⟩

/-- Maid row of identity 1 with hourly rate 9999.99 (999999 hundredths),
inside all bounds. -/
def maidGood : Maid := ⟨20, 1, 999999, 50000, 800000, "Noida", none, 0, 0, 0, 0, 0⟩

/-- Maid row of identity 1 with hourly rate exactly 10000 (1000000
hundredths), on the excluded boundary. -/
def maidBad : Maid := ⟨21, 1, 1000000, 50000, 800000, "Noida", none, 0, 0, 0, 0, 0⟩

/-- The store after the accepted insert of `maidGood`. -/
def dbAfterMaidGood : DB := { dbEmpty with maids := [maidGood] }

/-- Maid row 3 owned by identity 2, with 4 completed jobs recorded. -/
def maidM : Maid := ⟨3, 2, 10000, 50000, 800000, "Noida", none, 0, 0, 4, 0, 0⟩

/-- Store with maid row 3 (identity 2) and customer 1's pending job 5. -/
def dbC9 : DB := ⟨[], [], [], [maidM], [jobPending1]⟩

/-- Sample fresh identity with full signup metadata. -/
def userAlice : AuthUser := ⟨4, "alice@example.com", [("full_name", "Alice"), ("phone", "123")]⟩

/-- The store after identity 4 is created in the empty store. -/
def dbAfterAlice : DB :=
  { dbEmpty with auth_users := [userAlice], profiles := [handle_new_user 5 userAlice] }

/-- Caller-supplied profile update carrying a stale updated_at of 77. -/
def profileB2 : Profile := { profileB with full_name := "B2", updated_at := 77 }

/-- The store after identity 2 updates its profile to `profileB2` at time 9. -/
def dbC7 : DB := { dbC1 with profiles := [profileSetUpdatedAt 9 profileB2] }

end Maidly

namespace Maidly

/-- C1: for distinct authenticated identities A and B, the SELECT policy
on profiles ("Users can view own profile", auth.uid() = id) hides B's
profile row from A, and the SELECT policy on user_roles ("Users can view
own roles", auth.uid() = user_id) hides B's role rows from A. -/
theorem cross_identity_profile_and_role_reads_denied
    (A B : Nat) (db : DB) (hAB : A ≠ B) :
    (∀ p ∈ visibleProfiles A db, p.id ≠ B) ∧
    (∀ r ∈ visibleUserRoles A db, r.user_id ≠ B) := by
  constructor
  · intro p hp hB
    have h := (List.mem_filter.mp hp).2
    simp only [profilesSelectUsing, beq_iff_eq] at h
    exact hAB (h.trans hB)
  · intro r hr hB
    have h := (List.mem_filter.mp hr).2
    simp only [userRolesSelectUsing, beq_iff_eq] at h
    exact hAB (h.trans hB)

/-- Witness for C1: identity 1 sees neither identity 2's profile nor its
role row in the sample store. -/
theorem cross_identity_profile_and_role_reads_denied_witness :
    (1 : Nat) ≠ 2 ∧
    (∀ p ∈ visibleProfiles 1 dbC1, p.id ≠ 2) ∧
    (∀ r ∈ visibleUserRoles 1 dbC1, r.user_id ≠ 2) :=
  ⟨by decide,
   (cross_identity_profile_and_role_reads_denied 1 2 dbC1 (by decide)).1,
   (cross_identity_profile_and_role_reads_denied 1 2 dbC1 (by decide)).2⟩

/-- C2: for a candidate job row (one whose job_type and status lie in the
declared IN-lists of the schema), the insert succeeds exactly when the
row's customer_id is the caller and the caller holds a customer role row,
per policy "Customers can create jobs" and the SECURITY DEFINER
`has_role`. -/
theorem job_insert_iff_owner_with_customer_role
    (uid : Nat) (db : DB) (j : Job)
    (hty : jobTypeCheck j.job_type = true) (hst : statusCheck j.status = true) :
    (insertJob uid db j).isSome = true ↔
      (uid = j.customer_id ∧ has_role db uid AppRole.customer = true) := by
  simp [insertJob, jobsInsertCheck, hty, hst, Bool.and_eq_true, beq_iff_eq]

/-- Witness for C2: customer 1, holding the customer role, successfully
inserts its own pending hourly job. -/
theorem job_insert_iff_owner_with_customer_role_witness :
    jobTypeCheck jobPending1.job_type = true ∧
    statusCheck jobPending1.status = true ∧
    (insertJob 1 dbCust1 jobPending1).isSome = true :=
  ⟨by decide, by decide,
   (job_insert_iff_owner_with_customer_role 1 dbCust1 jobPending1
       (by decide) (by decide)).mpr ⟨by decide, by decide⟩⟩

/-- C3: a caller passing the jobs UPDATE gate may write any status in the
CHECK list over any current status — transition legality is never
enforced, only membership of the new status in the four-value set (a
non-member status is rejected). -/
theorem job_status_update_enforces_only_value_set
    (uid now : Nat) (db : DB) (j : Job) (s : String)
    (hpol : jobsUpdateUsing uid db j = true)
    (hty : jobTypeCheck j.job_type = true) :
    (statusCheck s = true →
      (updateJob uid now db j { j with status := s }).isSome = true) ∧
    (statusCheck s = false →
      updateJob uid now db j { j with status := s } = none) := by
  have hpol2 : jobsUpdateUsing uid db (jobSetUpdatedAt now { j with status := s }) = true := hpol
  have hty2 : jobTypeCheck (jobSetUpdatedAt now { j with status := s }).job_type = true := hty
  constructor
  · intro hs
    have hs2 : statusCheck (jobSetUpdatedAt now { j with status := s }).status = true := hs
    simp [updateJob, hpol, hpol2, hty2, hs2]
  · intro hs
    have hs2 : statusCheck (jobSetUpdatedAt now { j with status := s }).status = false := hs
    simp [updateJob, hpol, hpol2, hty2, hs2]

/-- Witness for C3: the owning customer overwrites a completed job with
cancelled, and separately with pending; both writes are accepted. -/
theorem job_status_update_enforces_only_value_set_witness :
    jobsUpdateUsing 1 dbCust1 jobCompleted1 = true ∧
    jobTypeCheck jobCompleted1.job_type = true ∧
    statusCheck "cancelled" = true ∧
    statusCheck "pending" = true ∧
    (updateJob 1 9 dbCust1 jobCompleted1 { jobCompleted1 with status := "cancelled" }).isSome = true ∧
    (updateJob 1 9 dbCust1 jobCompleted1 { jobCompleted1 with status := "pending" }).isSome = true :=
  ⟨by decide, by decide, by decide, by decide,
   (job_status_update_enforces_only_value_set 1 9 dbCust1 jobCompleted1 "cancelled"
       (by decide) (by decide)).1 (by decide),
   (job_status_update_enforces_only_value_set 1 9 dbCust1 jobCompleted1 "pending"
       (by decide) (by decide)).1 (by decide)⟩

/-- Counterexample to C4 as stated: identity match alone does not make a
maids insert succeed — identity 1 inserting its own row with hourly rate
exactly 10000 (1000000 hundredths) is rejected by
check_hourly_rate_positive. -/
theorem maid_insert_identity_match_not_sufficient :
    maidBad.user_id = 1 ∧ insertMaid 1 dbEmpty maidBad = none := by
  decide

/-- Helper: the exact success condition of a maids insert. -/
theorem insertMaid_isSome_iff (uid : Nat) (db : DB) (m : Maid) :
    (insertMaid uid db m).isSome = true ↔ (uid = m.user_id ∧ maidChecks m = true) := by
  simp [insertMaid, maidsInsertCheck, Bool.and_eq_true, beq_iff_eq, and_assoc]

/-- Helper: the exact success condition of a jobs update. -/
theorem updateJob_isSome_iff (uid now : Nat) (db : DB) (old jNew : Job) :
    (updateJob uid now db old jNew).isSome = true ↔
      (jobsUpdateUsing uid db old = true ∧
       jobsUpdateUsing uid db (jobSetUpdatedAt now jNew) = true ∧
       jobTypeCheck jNew.job_type = true ∧ statusCheck jNew.status = true) := by
  simp [updateJob, jobSetUpdatedAt, Bool.and_eq_true, and_assoc]

/-- Helper: the exact success condition of a maids update. -/
theorem updateMaid_isSome_iff (uid now : Nat) (db : DB) (old mNew : Maid) :
    (updateMaid uid now db old mNew).isSome = true ↔
      (uid = old.user_id ∧ uid = mNew.user_id ∧ maidChecks mNew = true) := by
  simp [updateMaid, maidsUpdateUsing, maidSetUpdatedAt, maidChecks,
    check_hourly_rate_positive, check_daily_rate_positive,
    check_monthly_rate_positive, Bool.and_eq_true, beq_iff_eq, and_assoc]

/-- C4 amended: a maids insert succeeds iff the caller's identity equals
the row's user_id AND the row passes the three rate check constraints; a
maids update succeeds iff the caller's identity equals both the existing
and the written row's user_id AND the written row passes the rate
checks. -/
theorem maid_write_iff_owner_and_rate_checks :
    (∀ (uid : Nat) (db : DB) (m : Maid),
      (insertMaid uid db m).isSome = true ↔ (uid = m.user_id ∧ maidChecks m = true)) ∧
    (∀ (uid now : Nat) (db : DB) (old mNew : Maid),
      (updateMaid uid now db old mNew).isSome = true ↔
        (uid = old.user_id ∧ uid = mNew.user_id ∧ maidChecks mNew = true)) :=
  ⟨insertMaid_isSome_iff, updateMaid_isSome_iff⟩

/-- C5: every maids row a write stores has each rate strictly inside its
bound (in hundredths of the DECIMAL(10,2) value: 0 < hourly < 1000000,
0 < daily < 5000000, 0 < monthly < 50000000); concretely an insert at
hourly rate 10000 is rejected and one at 9999.99 is accepted. -/
theorem maid_rates_strictly_inside_bounds :
    (∀ (uid : Nat) (db : DB) (m : Maid) (db2 : DB), insertMaid uid db m = some db2 →
      (0 < m.hourly_rate ∧ m.hourly_rate < 1000000) ∧
      (0 < m.daily_rate ∧ m.daily_rate < 5000000) ∧
      (0 < m.monthly_rate ∧ m.monthly_rate < 50000000)) ∧
    (∀ (uid now : Nat) (db : DB) (old mNew : Maid) (db2 : DB),
      updateMaid uid now db old mNew = some db2 →
      (0 < mNew.hourly_rate ∧ mNew.hourly_rate < 1000000) ∧
      (0 < mNew.daily_rate ∧ mNew.daily_rate < 5000000) ∧
      (0 < mNew.monthly_rate ∧ mNew.monthly_rate < 50000000)) ∧
    insertMaid 1 dbEmpty maidBad = none ∧
    insertMaid 1 dbEmpty maidGood = some dbAfterMaidGood := by
  refine ⟨?_, ?_, by decide, by decide⟩
  · intro uid db m db2 h
    have hc : (insertMaid uid db m).isSome = true := by rw [h]; rfl
    have := ((insertMaid_isSome_iff uid db m).mp hc).2
    have hb : ((0 < m.hourly_rate ∧ m.hourly_rate < 1000000) ∧
        0 < m.daily_rate ∧ m.daily_rate < 5000000) ∧
        0 < m.monthly_rate ∧ m.monthly_rate < 50000000 := by
      simpa [maidChecks, check_hourly_rate_positive, check_daily_rate_positive,
        check_monthly_rate_positive, Bool.and_eq_true] using this
    exact ⟨hb.1.1, hb.1.2, hb.2⟩
  · intro uid now db old mNew db2 h
    have hc : (updateMaid uid now db old mNew).isSome = true := by rw [h]; rfl
    have := ((updateMaid_isSome_iff uid now db old mNew).mp hc).2.2
    have hb : ((0 < mNew.hourly_rate ∧ mNew.hourly_rate < 1000000) ∧
        0 < mNew.daily_rate ∧ mNew.daily_rate < 5000000) ∧
        0 < mNew.monthly_rate ∧ mNew.monthly_rate < 50000000 := by
      simpa [maidChecks, check_hourly_rate_positive, check_daily_rate_positive,
        check_monthly_rate_positive, Bool.and_eq_true] using this
    exact ⟨hb.1.1, hb.1.2, hb.2⟩

/-- Witness for C5: the bounds instantiated on the accepted row with
hourly rate 9999.99. -/
theorem maid_rates_strictly_inside_bounds_witness :
    (0 < maidGood.hourly_rate ∧ maidGood.hourly_rate < 1000000) ∧
    (0 < maidGood.daily_rate ∧ maidGood.daily_rate < 5000000) ∧
    (0 < maidGood.monthly_rate ∧ maidGood.monthly_rate < 50000000) :=
  maid_rates_strictly_inside_bounds.1 1 dbEmpty maidGood dbAfterMaidGood (by decide)

/-- C6: creating a fresh identity materializes exactly one profiles row,
with id and email equal to the identity's, full_name from the full_name
metadata key defaulting to the empty string, and phone from the phone key
with no default; and no client-side path can insert profile rows, since
profiles declares no INSERT policy. -/
theorem identity_creation_materializes_unique_profile :
    (∀ (now : Nat) (db : DB) (u : AuthUser) (db2 : DB), createUser now db u = some db2 →
      (∀ p ∈ db.profiles, p.id ≠ u.id) →
      ∃ p, db2.profiles.filter (fun q => q.id == u.id) = [p] ∧
        p.id = u.id ∧ p.email = u.email ∧
        p.full_name = (metaField u.raw_user_meta_data "full_name").getD "" ∧
        p.phone = metaField u.raw_user_meta_data "phone") ∧
    (∀ (now : Nat) (u : AuthUser), metaField u.raw_user_meta_data "full_name" = none →
      (handle_new_user now u).full_name = "") ∧
    (∀ (uid : Nat) (p : Profile), profilesInsertCheck uid p = false) := by
  refine ⟨?_, ?_, fun _ _ => rfl⟩
  · intro now db u db2 h hfresh
    unfold createUser at h
    split at h
    · simp at h
    · injection h with h
      subst h
      refine ⟨handle_new_user now u, ?_, rfl, rfl, rfl, rfl⟩
      show (db.profiles ++ [handle_new_user now u]).filter (fun q => q.id == u.id) = _
      rw [List.filter_append]
      have h1 : db.profiles.filter (fun q => q.id == u.id) = [] := by
        rw [List.filter_eq_nil_iff]
        intro a ha
        simp [hfresh a ha]
      rw [h1]
      simp [handle_new_user]
  · intro now u hm
    simp [handle_new_user, hm]

/-- Witness for C6: creating identity 4 with full metadata in the empty
store yields exactly its one matching profile row. -/
theorem identity_creation_materializes_unique_profile_witness :
    ∃ p, dbAfterAlice.profiles.filter (fun q => q.id == userAlice.id) = [p] ∧
      p.id = userAlice.id ∧ p.email = userAlice.email ∧
      p.full_name = (metaField userAlice.raw_user_meta_data "full_name").getD "" ∧
      p.phone = metaField userAlice.raw_user_meta_data "phone" :=
  identity_creation_materializes_unique_profile.1 5 dbEmpty userAlice dbAfterAlice
    (by decide) (by decide)

/-- C7: every row a successful profiles, maids, or jobs update stores is
either an untouched pre-existing row or carries updated_at equal to the
store's current time — the BEFORE UPDATE trigger overwrites whatever
updated_at the caller supplied — while every other column equals the
caller-written value. -/
theorem updates_stamp_updated_at_overriding_caller :
    (∀ (uid now : Nat) (db : DB) (old pNew : Profile) (db2 : DB),
      updateProfile uid now db old pNew = some db2 →
      ∀ p ∈ db2.profiles, p ∈ db.profiles ∨
        (p.updated_at = now ∧ p.id = pNew.id ∧ p.email = pNew.email ∧
         p.full_name = pNew.full_name ∧ p.phone = pNew.phone ∧
         p.created_at = pNew.created_at)) ∧
    (∀ (uid now : Nat) (db : DB) (old mNew : Maid) (db2 : DB),
      updateMaid uid now db old mNew = some db2 →
      ∀ m ∈ db2.maids, m ∈ db.maids ∨
        (m.updated_at = now ∧ m.id = mNew.id ∧ m.user_id = mNew.user_id ∧
         m.hourly_rate = mNew.hourly_rate ∧ m.daily_rate = mNew.daily_rate ∧
         m.monthly_rate = mNew.monthly_rate ∧ m.location = mNew.location ∧
         m.description = mNew.description ∧ m.rating = mNew.rating ∧
         m.total_jobs = mNew.total_jobs ∧ m.completed_jobs = mNew.completed_jobs ∧
         m.created_at = mNew.created_at)) ∧
    (∀ (uid now : Nat) (db : DB) (old jNew : Job) (db2 : DB),
      updateJob uid now db old jNew = some db2 →
      ∀ j ∈ db2.jobs, j ∈ db.jobs ∨
        (j.updated_at = now ∧ j.id = jNew.id ∧ j.customer_id = jNew.customer_id ∧
         j.maid_id = jNew.maid_id ∧ j.job_date = jNew.job_date ∧
         j.duration = jNew.duration ∧ j.location = jNew.location ∧
         j.job_type = jNew.job_type ∧ j.amount = jNew.amount ∧
         j.status = jNew.status ∧ j.created_at = jNew.created_at)) := by
  refine ⟨?_, ?_, ?_⟩
  · intro uid now db old pNew db2 h p hp
    unfold updateProfile at h
    split at h
    · injection h with h
      subst h
      rcases List.mem_map.mp hp with ⟨x, hx, hxe⟩
      by_cases hid : (x.id == old.id) = true
      · rw [if_pos hid] at hxe
        subst hxe
        exact Or.inr ⟨rfl, rfl, rfl, rfl, rfl, rfl⟩
      · rw [if_neg hid] at hxe
        subst hxe
        exact Or.inl hx
    · simp at h
  · intro uid now db old mNew db2 h m hm
    unfold updateMaid at h
    split at h
    · injection h with h
      subst h
      rcases List.mem_map.mp hm with ⟨x, hx, hxe⟩
      by_cases hid : (x.id == old.id) = true
      · rw [if_pos hid] at hxe
        subst hxe
        exact Or.inr ⟨rfl, rfl, rfl, rfl, rfl, rfl, rfl, rfl, rfl, rfl, rfl, rfl⟩
      · rw [if_neg hid] at hxe
        subst hxe
        exact Or.inl hx
    · simp at h
  · intro uid now db old jNew db2 h j hj
    unfold updateJob at h
    split at h
    · injection h with h
      subst h
      rcases List.mem_map.mp hj with ⟨x, hx, hxe⟩
      by_cases hid : (x.id == old.id) = true
      · rw [if_pos hid] at hxe
        subst hxe
        exact Or.inr ⟨rfl, rfl, rfl, rfl, rfl, rfl, rfl, rfl, rfl, rfl, rfl⟩
      · rw [if_neg hid] at hxe
        subst hxe
        exact Or.inl hx
    · simp at h

/-- Witness for C7: identity 2 updates its profile supplying a stale
updated_at of 77 at time 9; every stored row is an old row or carries
updated_at 9 with the written columns. -/
theorem updates_stamp_updated_at_overriding_caller_witness :
    ∀ p ∈ dbC7.profiles, p ∈ dbC1.profiles ∨
      (p.updated_at = 9 ∧ p.id = profileB2.id ∧ p.email = profileB2.email ∧
       p.full_name = profileB2.full_name ∧ p.phone = profileB2.phone ∧
       p.created_at = profileB2.created_at) :=
  updates_stamp_updated_at_overriding_caller.1 2 9 dbC1 profileB profileB2 dbC7 (by decide)

/-- C8: after the corrective migration restricts profile reads to the
owner, the customer dashboard's inner join of maids with profiles returns
no row for any maid owned by a different identity, even though the bare
maids row itself is visible to the caller. -/
theorem maid_listing_join_empty_for_other_identities
    (uid : Nat) (db : DB) (m : Maid) (hm : m ∈ db.maids) (hne : m.user_id ≠ uid) :
    m ∈ visibleMaids uid db ∧ ∀ p, (m, p) ∉ fetchMaids uid db := by
  constructor
  · exact List.mem_filter.mpr ⟨hm, rfl⟩
  · intro p hp
    rcases List.mem_flatMap.mp hp with ⟨m2, hm2, hpair⟩
    rcases List.mem_map.mp hpair with ⟨p2, hp2, heq⟩
    have hme : m2 = m := congrArg Prod.fst heq
    have hpe : p2 = p := congrArg Prod.snd heq
    subst hme
    subst hpe
    have hvis := (List.mem_filter.mp hp2).1
    have hkey := (List.mem_filter.mp hp2).2
    have hown := (List.mem_filter.mp hvis).2
    simp only [beq_iff_eq] at hkey
    simp only [profilesSelectUsing, beq_iff_eq] at hown
    exact hne (hown.trans hkey).symm

/-- Witness for C8: maid row 3 of identity 2 is visible to caller 1 but
absent from caller 1's joined listing in a store holding both rows. -/
theorem maid_listing_join_empty_for_other_identities_witness :
    maidM ∈ visibleMaids 1 { dbC9 with profiles := [profileB] } ∧
    ∀ p, (maidM, p) ∉ fetchMaids 1 { dbC9 with profiles := [profileB] } :=
  maid_listing_join_empty_for_other_identities 1 { dbC9 with profiles := [profileB] } maidM
    (by decide) (by decide)

/-- Helper: a single client operation never writes total_jobs — every
maids row after the operation is a newly defaulted row (total_jobs 0) or
keeps the total_jobs of a pre-existing row. -/
theorem applyClientOp_total_jobs (db : DB) (op : ClientOp) :
    ∀ m ∈ (applyClientOp db op).maids,
      m.total_jobs = 0 ∨ ∃ m0 ∈ db.maids, m.total_jobs = m0.total_jobs := by
  cases op with
  | signupRole uid rowId role =>
      intro m hm
      have he : (applyClientOp db (ClientOp.signupRole uid rowId role)).maids = db.maids := by
        simp only [applyClientOp, insertUserRole]
        split <;> rfl
      rw [he] at hm
      exact Or.inr ⟨m, hm, rfl⟩
  | signupMaid uid rowId now s =>
      intro m hm
      simp only [applyClientOp, insertMaid] at hm
      split at hm
      · simp only [Option.getD_some] at hm
        rcases List.mem_append.mp hm with h | h
        · exact Or.inr ⟨m, h, rfl⟩
        · rcases List.mem_singleton.mp h with rfl
          exact Or.inl rfl
      · exact Or.inr ⟨m, hm, rfl⟩
  | bookJob uid rowId now maidId jobDate dur loc jt amount =>
      intro m hm
      have he : (applyClientOp db (ClientOp.bookJob uid rowId now maidId jobDate dur loc jt amount)).maids
          = db.maids := by
        simp only [applyClientOp, insertJob]
        split <;> rfl
      rw [he] at hm
      exact Or.inr ⟨m, hm, rfl⟩
  | acceptJob uid now jobId =>
      intro m hm
      exact Or.inr ⟨m, hm, rfl⟩
  | rejectJob uid now jobId =>
      intro m hm
      exact Or.inr ⟨m, hm, rfl⟩
  | cancelJob uid now jobId =>
      intro m hm
      exact Or.inr ⟨m, hm, rfl⟩
  | completeJobOp uid now jobId maidId cached ok2 =>
      intro m hm
      cases ok2 with
      | false =>
          exact Or.inr ⟨m, hm, rfl⟩
      | true =>
          simp only [applyClientOp, completeJob, if_pos, setMaidCompletedJobs,
            setJobStatus] at hm
          rcases List.mem_map.mp hm with ⟨x, hx, hxe⟩
          by_cases hc : (x.id == maidId && maidsUpdateUsing uid x) = true
          · rw [if_pos hc] at hxe
            subst hxe
            exact Or.inr ⟨x, hx, rfl⟩
          · rw [if_neg hc] at hxe
            subst hxe
            exact Or.inr ⟨x, hx, rfl⟩

/-- C9: completing a job is two independent writes — when the second one
does not take effect the job is already stored as completed while no
maids counter moved; when it does, the counter is set to the client's
stale cached value plus one, not derived from the store; and no client
operation ever writes total_jobs, which therefore stays at its default 0
across any operation sequence. -/
theorem complete_job_nonatomic_and_total_jobs_never_updated :
    (∀ (uid now : Nat) (db : DB) (jobId maidId : Nat) (cached : Int),
      (completeJob uid now db jobId maidId cached false).maids = db.maids) ∧
    (∀ (uid now : Nat) (db : DB) (jobId maidId : Nat) (cached : Int) (j : Job),
      j ∈ db.jobs → j.id = jobId → jobsUpdateUsing uid db j = true →
      jobSetUpdatedAt now { j with status := "completed" } ∈
        (completeJob uid now db jobId maidId cached false).jobs) ∧
    (∀ (uid now : Nat) (db : DB) (jobId maidId : Nat) (cached : Int) (m : Maid),
      m ∈ (completeJob uid now db jobId maidId cached true).maids →
      m ∈ db.maids ∨ m.completed_jobs = cached + 1) ∧
    (∀ (db : DB) (ops : List ClientOp), (∀ m ∈ db.maids, m.total_jobs = 0) →
      ∀ m ∈ (applyClientOps db ops).maids, m.total_jobs = 0) := by
  refine ⟨fun _ _ _ _ _ _ => rfl, ?_, ?_, ?_⟩
  · intro uid now db jobId maidId cached j hj hid hpol
    simp only [completeJob, if_neg, setJobStatus]
    apply List.mem_map.mpr
    refine ⟨j, hj, ?_⟩
    have hcond : (j.id == jobId && jobsUpdateUsing uid db j && statusCheck "completed") = true := by
      simp [hid, hpol, statusCheck]
    rw [if_pos hcond]
  · intro uid now db jobId maidId cached m hm
    simp only [completeJob, if_pos, setMaidCompletedJobs, setJobStatus] at hm
    rcases List.mem_map.mp hm with ⟨x, hx, hxe⟩
    by_cases hc : (x.id == maidId && maidsUpdateUsing uid x) = true
    · rw [if_pos hc] at hxe
      subst hxe
      exact Or.inr rfl
    · rw [if_neg hc] at hxe
      subst hxe
      exact Or.inl hx
  · intro db ops
    induction ops generalizing db with
    | nil => intro h m hm; exact h m hm
    | cons op rest ih =>
        intro h m hm
        refine ih (applyClientOp db op) ?_ m hm
        intro m2 hm2
        rcases applyClientOp_total_jobs db op m2 hm2 with h0 | ⟨m0, hm0, he⟩
        · exact h0
        · exact he ▸ h m0 hm0

/-- Witness for C9: the assigned maid (identity 2) completes job 5 with a
cached counter of 4 while the second write is lost; the completed job row
is stored and, by the first conjunct, the maids table is untouched. -/
theorem complete_job_nonatomic_and_total_jobs_never_updated_witness :
    jobSetUpdatedAt 9 { jobPending1 with status := "completed" } ∈
      (completeJob 2 9 dbC9 5 3 4 false).jobs :=
  complete_job_nonatomic_and_total_jobs_never_updated.2.1 2 9 dbC9 5 3 4 jobPending1
    (by simp [dbC9]) (by decide) (by decide)

/-- C10: the update policies gate rows, not columns — the owning customer
may rewrite a job's amount, date, duration, location, job_type and
maid_id to arbitrary values (subject only to the job_type IN-list), and a
maid may set its own row's rating, total_jobs and completed_jobs to
arbitrary values (the declared check constraints touch only the
rates). -/
theorem update_policies_do_not_restrict_columns :
    (∀ (uid now : Nat) (db : DB) (j : Job) (a : Int) (d : Nat) (du loc t : String) (mi : Nat),
      uid = j.customer_id → statusCheck j.status = true → jobTypeCheck t = true →
      (updateJob uid now db j
        { j with amount := a, job_date := d, duration := du, location := loc,
                 job_type := t, maid_id := mi }).isSome = true) ∧
    (∀ (uid now : Nat) (db : DB) (m : Maid) (r tj cj : Int),
      uid = m.user_id → maidChecks m = true →
      (updateMaid uid now db m
        { m with rating := r, total_jobs := tj, completed_jobs := cj }).isSome = true) := by
  constructor
  · intro uid now db j a d du loc t mi hown hst hty
    refine (updateJob_isSome_iff uid now db j _).mpr ⟨?_, ?_, hty, hst⟩
    · simp [jobsUpdateUsing, hown]
    · simp [jobsUpdateUsing, jobSetUpdatedAt, hown]
  · intro uid now db m r tj cj hown hchk
    exact (updateMaid_isSome_iff uid now db m _).mpr ⟨hown, hown, hchk⟩

/-- Witness for C10: customer 1 rewrites every non-status column of its
pending job, including reassigning maid_id to 99, and the update is
accepted; the maid of row 3 (identity 2) rewrites its rating and both
counters, and the update is accepted. -/
theorem update_policies_do_not_restrict_columns_witness :
    (updateJob 1 9 dbCust1 jobPending1
      { jobPending1 with amount := 1, job_date := 2, duration := "d", location := "l",
                         job_type := "daily", maid_id := 99 }).isSome = true ∧
    (updateMaid 2 9 dbC9 maidM
      { maidM with rating := 500, total_jobs := 1000, completed_jobs := 1000 }).isSome = true :=
  ⟨update_policies_do_not_restrict_columns.1 1 9 dbCust1 jobPending1 1 2 "d" "l" "daily" 99
      (by decide) (by decide) (by decide),
   update_policies_do_not_restrict_columns.2 2 9 dbC9 maidM 500 1000 1000
      (by decide) (by decide)⟩

end Maidly
